import Mathlib

/-!
Verification of the transaction-processing core of the bank ledger replayer.

The embedding mirrors `src/main.rs`: `Money` is the scaled `i64` payload as an
unbounded integer with every arithmetic step range-checked exactly where the
source uses `checked_add` / `checked_sub`; `Account` and `Bank` carry the same
fields; each fallible operation returns `Except TxError`, matching the
source functions, which perform no field write before all checks succeed.
The two `HashMap`s of `Bank` are modelled extensionally as functions into
`Option`.
-/

deriving instance DecidableEq for Except

/-- Lower bound of the `i64` range used by `Money(i64)`. -/
def I64_MIN : Int := -(2 ^ 63)

/-- Upper bound of the `i64` range used by `Money(i64)`. -/
def I64_MAX : Int := 2 ^ 63 - 1

/-- The scaled-integer payload of `struct Money(i64)`. -/
abbrev Money := Int

/-- Source `type ClientId = u16` (the width is irrelevant to the claims). -/
abbrev ClientId := Nat

/-- Source `type TxId = u32` (the width is irrelevant to the claims). -/
abbrev TxId := Nat

/-- The `TxError` enum of the source. -/
inductive TxError where
  | InsufficientFunds
  | LockedAccount
  | NoSuchTransaction
  | Overflow
deriving DecidableEq, Repr

/-- Checked addition, `impl Add for Money`: `checked_add`, failing with `Overflow` exactly when
the mathematical sum of two in-range values leaves the `i64` range. -/
def checkedAdd (a b : Money) : Except TxError Money :=
  if I64_MIN ≤ a + b ∧ a + b ≤ I64_MAX then .ok (a + b) else .error .Overflow

/-- Checked subtraction, `impl Sub for Money`: `checked_sub`, failing with `Overflow` exactly when
the mathematical difference of two in-range values leaves the `i64` range. -/
def checkedSub (a b : Money) : Except TxError Money :=
  if I64_MIN ≤ a - b ∧ a - b ≤ I64_MAX then .ok (a - b) else .error .Overflow

/-- The `Account` struct. -/
structure Account where
  client_id : ClientId
  available : Money
  held : Money
  locked : Bool
deriving DecidableEq, Repr

/-- Source `Account::new`. -/
def Account.new (c : ClientId) : Account :=
  { client_id := c, available := 0, held := 0, locked := false }

/-- Source `Account::total_balance`: `(self.available + self.held).expect(..)`.
The source panics when the checked addition fails; the panic is modelled as
the `Overflow` error of the checked addition. -/
def Account.total_balance (a : Account) : Except TxError Money :=
  checkedAdd a.available a.held

/-- Source `Account::check_unlocked`. -/
def Account.check_unlocked (a : Account) : Except TxError Unit :=
  if a.locked then .error .LockedAccount else .ok ()

/-- Source `Account::deposit`: lock check, then checked `available + amount`; the
field is written only after both checks succeed. -/
def Account.deposit (a : Account) (amount : Money) : Except TxError Account :=
  match a.check_unlocked with
  | .error e => .error e
  | .ok _ =>
    match checkedAdd a.available amount with
    | .error e => .error e
    | .ok available => .ok { a with available := available }

/-- Source `Account::withdraw`: lock check, checked `available - amount`, then the
non-negativity check; the field is written only in the success branch. -/
def Account.withdraw (a : Account) (amount : Money) : Except TxError Account :=
  match a.check_unlocked with
  | .error e => .error e
  | .ok _ =>
    match checkedSub a.available amount with
    | .error e => .error e
    | .ok available =>
      if 0 ≤ available then
        .ok { a with available := available }
      else
        .error .InsufficientFunds

/-- Source `Account::dispute`: both checked operations are evaluated before either
field is written; no lock check. -/
def Account.dispute (a : Account) (amount : Money) : Except TxError Account :=
  match checkedSub a.available amount with
  | .error e => .error e
  | .ok available =>
    match checkedAdd a.held amount with
    | .error e => .error e
    | .ok held => .ok { a with available := available, held := held }

/-- Source `Account::resolve`: both checked operations are evaluated before either
field is written; no lock check. -/
def Account.resolve (a : Account) (amount : Money) : Except TxError Account :=
  match checkedAdd a.available amount with
  | .error e => .error e
  | .ok available =>
    match checkedSub a.held amount with
    | .error e => .error e
    | .ok held => .ok { a with available := available, held := held }

/-- Source `Account::chargeback`: checked `held - amount`, then `locked = true`;
no lock check. -/
def Account.chargeback (a : Account) (amount : Money) : Except TxError Account :=
  match checkedSub a.held amount with
  | .error e => .error e
  | .ok held => .ok { a with held := held, locked := true }

/-- The `Tx` enum. -/
inductive Tx where
  | Deposit (client : ClientId) (id : TxId) (amount : Money)
  | Withdrawal (client : ClientId) (id : TxId) (amount : Money)
  | Dispute (client : ClientId) (id : TxId)
  | Resolve (client : ClientId) (id : TxId)
  | Chargeback (client : ClientId) (id : TxId)
deriving DecidableEq, Repr

/-- The `Bank` struct; the two `HashMap`s are modelled extensionally. -/
structure Bank where
  accounts : ClientId → Option Account
  amounts : TxId → Option Money

/-- Source `Bank::default()`: both maps empty. -/
def Bank.empty : Bank :=
  { accounts := fun _ => none, amounts := fun _ => none }

/-- Source `Bank::account`: `entry(client).or_insert_with(Account::new)`. Returns
the looked-up account together with the bank, in which a fresh account has
been inserted when the client was absent. -/
def Bank.account (b : Bank) (client : ClientId) : Account × Bank :=
  match b.accounts client with
  | some a => (a, b)
  | none =>
    let a := Account.new client
    (a, { b with accounts := fun c => if c = client then some a else b.accounts c })

/-- Write-back of the mutated account, modelling the in-place mutation
through the `&mut Account` returned by `Bank::account`. -/
def Bank.setAccount (b : Bank) (client : ClientId) (a : Account) : Bank :=
  { b with accounts := fun c => if c = client then some a else b.accounts c }

/-- Source `Bank::amount`: history lookup failing with `NoSuchTransaction`. -/
def Bank.amount (b : Bank) (id : TxId) : Except TxError Money :=
  match b.amounts id with
  | some m => .ok m
  | none => .error .NoSuchTransaction

/-- Source `self.amounts.insert(id, amount)`. -/
def Bank.recordAmount (b : Bank) (id : TxId) (m : Money) : Bank :=
  { b with amounts := fun i => if i = id then some m else b.amounts i }

/-- Source `Bank::process`. The returned bank reflects every mutation the source
performs on the error path as well: `Bank::account` may insert a fresh
account before the account operation fails. -/
def Bank.process (b : Bank) (tx : Tx) : Except TxError Unit × Bank :=
  match tx with
  | .Deposit client id amount =>
    match ((b.account client).1).deposit amount with
    | .ok acc' => (.ok (), (((b.account client).2).setAccount client acc').recordAmount id amount)
    | .error e => (.error e, (b.account client).2)
  | .Withdrawal client _ amount =>
    match ((b.account client).1).withdraw amount with
    | .ok acc' => (.ok (), ((b.account client).2).setAccount client acc')
    | .error e => (.error e, (b.account client).2)
  | .Dispute client id =>
    match b.amount id with
    | .error e => (.error e, b)
    | .ok amount =>
      match ((b.account client).1).dispute amount with
      | .ok acc' => (.ok (), ((b.account client).2).setAccount client acc')
      | .error e => (.error e, (b.account client).2)
  | .Resolve client id =>
    match b.amount id with
    | .error e => (.error e, b)
    | .ok amount =>
      match ((b.account client).1).resolve amount with
      | .ok acc' => (.ok (), ((b.account client).2).setAccount client acc')
      | .error e => (.error e, (b.account client).2)
  | .Chargeback client id =>
    match b.amount id with
    | .error e => (.error e, b)
    | .ok amount =>
      match ((b.account client).1).chargeback amount with
      | .ok acc' => (.ok (), ((b.account client).2).setAccount client acc')
      | .error e => (.error e, (b.account client).2)

/-- The main loop of the driver on the core side: each transaction is
processed in order and the run continues after a failure, keeping whatever
state the failing call left behind. -/
def Bank.run (b : Bank) (txs : List Tx) : Bank :=
  txs.foldl (fun b tx => (b.process tx).2) b

/-- Helper: `Bank::account` never touches the amount history. -/
theorem Bank.account_amounts (b : Bank) (c : ClientId) :
    ((b.account c).2).amounts = b.amounts := by
  unfold Bank.account
  split <;> rfl

/-- Helper: `Bank::account` preserves every account entry that already exists. -/
theorem Bank.account_accounts_of_some (b : Bank) (c c' : ClientId) (a : Account)
    (h : b.accounts c' = some a) : ((b.account c).2).accounts c' = some a := by
  unfold Bank.account
  split
  · exact h
  · rename_i hnone
    by_cases hc : c' = c
    · subst hc
      rw [hnone] at h
      exact absurd h (by simp)
    · show (if c' = c then _ else b.accounts c') = some a
      rw [if_neg hc]
      exact h

/-- Helper: writing an account back never touches the amount history. -/
theorem Bank.setAccount_amounts (b : Bank) (c : ClientId) (a : Account) :
    (b.setAccount c a).amounts = b.amounts := rfl

/-- Helper: reading back the account just written. -/
theorem Bank.setAccount_accounts_self (b : Bank) (c : ClientId) (a : Account) :
    (b.setAccount c a).accounts c = some a := by
  simp [Bank.setAccount]

/-- Helper: writing one account back leaves every other client's entry alone. -/
theorem Bank.setAccount_accounts_other (b : Bank) (c c' : ClientId) (a : Account)
    (h : c' ≠ c) : (b.setAccount c a).accounts c' = b.accounts c' := by
  simp [Bank.setAccount, h]

/-- Helper: a successful checked addition stayed in range and returned the sum. -/
theorem checkedAdd_ok (x y v : Money) (h : checkedAdd x y = .ok v) :
    I64_MIN ≤ x + y ∧ x + y ≤ I64_MAX ∧ v = x + y := by
  unfold checkedAdd at h
  by_cases hr : I64_MIN ≤ x + y ∧ x + y ≤ I64_MAX
  · rw [if_pos hr] at h
    simp only [Except.ok.injEq] at h
    exact ⟨hr.1, hr.2, h.symm⟩
  · rw [if_neg hr] at h
    exact absurd h (by simp)

/-- Helper: a successful checked subtraction stayed in range and returned the
difference. -/
theorem checkedSub_ok (x y v : Money) (h : checkedSub x y = .ok v) :
    I64_MIN ≤ x - y ∧ x - y ≤ I64_MAX ∧ v = x - y := by
  unfold checkedSub at h
  by_cases hr : I64_MIN ≤ x - y ∧ x - y ≤ I64_MAX
  · rw [if_pos hr] at h
    simp only [Except.ok.injEq] at h
    exact ⟨hr.1, hr.2, h.symm⟩
  · rw [if_neg hr] at h
    exact absurd h (by simp)

/-- Helper: `check_unlocked` succeeds exactly on unlocked accounts. -/
theorem Account.check_unlocked_ok (a : Account) (u : Unit)
    (h : a.check_unlocked = .ok u) : a.locked = false := by
  unfold Account.check_unlocked at h
  by_cases hl : a.locked = true
  · rw [if_pos hl] at h
    exact absurd h (by simp)
  · rw [if_neg hl] at h
    simpa using hl

/-- Helper: a successful `Account::deposit` means the account was unlocked, the
checked sum stayed in range, and only `available` changed. -/
theorem Account.deposit_ok (a a' : Account) (m : Money)
    (h : a.deposit m = .ok a') :
    a.locked = false ∧ I64_MIN ≤ a.available + m ∧ a.available + m ≤ I64_MAX ∧
      a' = { a with available := a.available + m } := by
  unfold Account.deposit at h
  cases hcu : a.check_unlocked with
  | error e => rw [hcu] at h; simp at h
  | ok u =>
    rw [hcu] at h
    cases hca : checkedAdd a.available m with
    | error e => rw [hca] at h; simp at h
    | ok v =>
      rw [hca] at h
      simp only [Except.ok.injEq] at h
      obtain ⟨h₁, h₂, h₃⟩ := checkedAdd_ok _ _ _ hca
      exact ⟨a.check_unlocked_ok u hcu, h₁, h₂, by rw [← h, h₃]⟩

/-- Helper: a successful `Account::withdraw` means unlocked, in range,
non-negative result, and only `available` changed. -/
theorem Account.withdraw_ok (a a' : Account) (m : Money)
    (h : a.withdraw m = .ok a') :
    a.locked = false ∧ I64_MIN ≤ a.available - m ∧ a.available - m ≤ I64_MAX ∧
      0 ≤ a.available - m ∧ a' = { a with available := a.available - m } := by
  unfold Account.withdraw at h
  cases hcu : a.check_unlocked with
  | error e => rw [hcu] at h; simp at h
  | ok u =>
    rw [hcu] at h
    cases hcs : checkedSub a.available m with
    | error e => rw [hcs] at h; simp at h
    | ok v =>
      rw [hcs] at h
      obtain ⟨h₁, h₂, h₃⟩ := checkedSub_ok _ _ _ hcs
      subst h₃
      by_cases hnn : (0 : Int) ≤ a.available - m
      · simp only [hnn, if_true, Except.ok.injEq] at h
        exact ⟨a.check_unlocked_ok u hcu, h₁, h₂, hnn, h.symm⟩
      · simp [hnn] at h

/-- Helper: a successful `Account::dispute` moved `amount` from `available`
to `held`, both checked operations staying in range. -/
theorem Account.dispute_ok (a a' : Account) (m : Money)
    (h : a.dispute m = .ok a') :
    I64_MIN ≤ a.available - m ∧ a.available - m ≤ I64_MAX ∧
    I64_MIN ≤ a.held + m ∧ a.held + m ≤ I64_MAX ∧
      a' = { a with available := a.available - m, held := a.held + m } := by
  unfold Account.dispute at h
  cases hcs : checkedSub a.available m with
  | error e => rw [hcs] at h; simp at h
  | ok v =>
    rw [hcs] at h
    cases hca : checkedAdd a.held m with
    | error e => rw [hca] at h; simp at h
    | ok w =>
      rw [hca] at h
      simp only [Except.ok.injEq] at h
      obtain ⟨h₁, h₂, h₃⟩ := checkedSub_ok _ _ _ hcs
      obtain ⟨h₄, h₅, h₆⟩ := checkedAdd_ok _ _ _ hca
      exact ⟨h₁, h₂, h₄, h₅, by rw [← h, h₃, h₆]⟩

/-- Helper: a successful `Account::resolve` moved `amount` from `held` back to
`available`, both checked operations staying in range. -/
theorem Account.resolve_ok (a a' : Account) (m : Money)
    (h : a.resolve m = .ok a') :
    I64_MIN ≤ a.available + m ∧ a.available + m ≤ I64_MAX ∧
    I64_MIN ≤ a.held - m ∧ a.held - m ≤ I64_MAX ∧
      a' = { a with available := a.available + m, held := a.held - m } := by
  unfold Account.resolve at h
  cases hca : checkedAdd a.available m with
  | error e => rw [hca] at h; simp at h
  | ok v =>
    rw [hca] at h
    cases hcs : checkedSub a.held m with
    | error e => rw [hcs] at h; simp at h
    | ok w =>
      rw [hcs] at h
      simp only [Except.ok.injEq] at h
      obtain ⟨h₁, h₂, h₃⟩ := checkedAdd_ok _ _ _ hca
      obtain ⟨h₄, h₅, h₆⟩ := checkedSub_ok _ _ _ hcs
      exact ⟨h₁, h₂, h₄, h₅, by rw [← h, h₃, h₆]⟩

/-- Helper: a successful `Account::chargeback` removed `amount` from `held`
and set the lock. -/
theorem Account.chargeback_ok (a a' : Account) (m : Money)
    (h : a.chargeback m = .ok a') :
    I64_MIN ≤ a.held - m ∧ a.held - m ≤ I64_MAX ∧
      a' = { a with held := a.held - m, locked := true } := by
  unfold Account.chargeback at h
  cases hcs : checkedSub a.held m with
  | error e => rw [hcs] at h; simp at h
  | ok v =>
    rw [hcs] at h
    simp only [Except.ok.injEq] at h
    obtain ⟨h₁, h₂, h₃⟩ := checkedSub_ok _ _ _ hcs
    exact ⟨h₁, h₂, by rw [← h, h₃]⟩

/-- Helper: `Account::dispute` succeeds whenever both checked operations stay
in range, independently of the lock flag. -/
theorem Account.dispute_eq_ok (a : Account) (m : Money)
    (h₁ : I64_MIN ≤ a.available - m) (h₂ : a.available - m ≤ I64_MAX)
    (h₃ : I64_MIN ≤ a.held + m) (h₄ : a.held + m ≤ I64_MAX) :
    a.dispute m = .ok { a with available := a.available - m, held := a.held + m } := by
  simp [Account.dispute, checkedSub, checkedAdd, h₁, h₂, h₃, h₄]

/-- Helper: `Account::resolve` succeeds whenever both checked operations stay
in range, independently of the lock flag. -/
theorem Account.resolve_eq_ok (a : Account) (m : Money)
    (h₁ : I64_MIN ≤ a.available + m) (h₂ : a.available + m ≤ I64_MAX)
    (h₃ : I64_MIN ≤ a.held - m) (h₄ : a.held - m ≤ I64_MAX) :
    a.resolve m = .ok { a with available := a.available + m, held := a.held - m } := by
  simp [Account.resolve, checkedSub, checkedAdd, h₁, h₂, h₃, h₄]

/-- Helper: `Account::chargeback` succeeds whenever its checked subtraction
stays in range, independently of the lock flag. -/
theorem Account.chargeback_eq_ok (a : Account) (m : Money)
    (h₁ : I64_MIN ≤ a.held - m) (h₂ : a.held - m ≤ I64_MAX) :
    a.chargeback m = .ok { a with held := a.held - m, locked := true } := by
  simp [Account.chargeback, checkedSub, h₁, h₂]

/-- C8: a Dispute, Resolve or Chargeback whose TxId has no entry in the
amount history fails with NoSuchTransaction and returns the bank completely
unchanged; since the history lookup precedes the account lookup, no fresh
account is created for the named client. -/
theorem C8_unknown_id_rejected (b : Bank) (c : ClientId) (id : TxId)
    (h : b.amounts id = none) :
    b.process (.Dispute c id) = (.error .NoSuchTransaction, b) ∧
    b.process (.Resolve c id) = (.error .NoSuchTransaction, b) ∧
    b.process (.Chargeback c id) = (.error .NoSuchTransaction, b) := by
  refine ⟨?_, ?_, ?_⟩ <;> simp [Bank.process, Bank.amount, h]

/-- C8 witness: on the empty bank, disputing, resolving or charging back the
unknown transaction 1 fails with NoSuchTransaction and changes nothing. -/
theorem C8_witness :
    Bank.empty.amounts 1 = none ∧
    Bank.empty.process (.Dispute 1 1) = (.error .NoSuchTransaction, Bank.empty) ∧
    Bank.empty.process (.Resolve 1 1) = (.error .NoSuchTransaction, Bank.empty) ∧
    Bank.empty.process (.Chargeback 1 1) = (.error .NoSuchTransaction, Bank.empty) :=
  ⟨rfl, (C8_unknown_id_rejected Bank.empty 1 1 rfl).1,
    (C8_unknown_id_rejected Bank.empty 1 1 rfl).2.1,
    (C8_unknown_id_rejected Bank.empty 1 1 rfl).2.2⟩

/-- C3: whenever `Bank::process` returns an error, the amount-history map is
exactly as before and every account that existed before the call still has
exactly its old fields; in particular a failing deposit records nothing and a
failing dispute, resolve or chargeback writes no field. -/
theorem C3_error_no_mutation (b : Bank) (tx : Tx) (e : TxError)
    (h : (b.process tx).1 = .error e) :
    ((b.process tx).2).amounts = b.amounts ∧
    ∀ c a, b.accounts c = some a → ((b.process tx).2).accounts c = some a := by
  cases tx with
  | Deposit client id amount =>
    simp only [Bank.process] at h ⊢
    cases hd : ((b.account client).1).deposit amount with
    | ok acc' => simp [hd] at h
    | error e' =>
      simp only [hd]
      exact ⟨Bank.account_amounts b client,
        fun c a hc => Bank.account_accounts_of_some b client c a hc⟩
  | Withdrawal client id amount =>
    simp only [Bank.process] at h ⊢
    cases hd : ((b.account client).1).withdraw amount with
    | ok acc' => simp [hd] at h
    | error e' =>
      simp only [hd]
      exact ⟨Bank.account_amounts b client,
        fun c a hc => Bank.account_accounts_of_some b client c a hc⟩
  | Dispute client id =>
    cases ham : b.amounts id with
    | none =>
      simp [Bank.process, Bank.amount, ham]
    | some amount =>
      simp only [Bank.process, Bank.amount, ham] at h ⊢
      cases hd : ((b.account client).1).dispute amount with
      | ok acc' => simp [hd] at h
      | error e' =>
        simp only [hd]
        exact ⟨Bank.account_amounts b client,
          fun c a hc => Bank.account_accounts_of_some b client c a hc⟩
  | Resolve client id =>
    cases ham : b.amounts id with
    | none =>
      simp [Bank.process, Bank.amount, ham]
    | some amount =>
      simp only [Bank.process, Bank.amount, ham] at h ⊢
      cases hd : ((b.account client).1).resolve amount with
      | ok acc' => simp [hd] at h
      | error e' =>
        simp only [hd]
        exact ⟨Bank.account_amounts b client,
          fun c a hc => Bank.account_accounts_of_some b client c a hc⟩
  | Chargeback client id =>
    cases ham : b.amounts id with
    | none =>
      simp [Bank.process, Bank.amount, ham]
    | some amount =>
      simp only [Bank.process, Bank.amount, ham] at h ⊢
      cases hd : ((b.account client).1).chargeback amount with
      | ok acc' => simp [hd] at h
      | error e' =>
        simp only [hd]
        exact ⟨Bank.account_amounts b client,
          fun c a hc => Bank.account_accounts_of_some b client c a hc⟩

/-- C3 witness: a withdrawal exceeding the available balance fails with
InsufficientFunds and leaves the history and the existing account untouched. -/
theorem C3_witness :
    ((Bank.empty.run [.Deposit 1 1 50000]).process (.Withdrawal 1 9 999999)).1 =
      .error .InsufficientFunds ∧
    (((Bank.empty.run [.Deposit 1 1 50000]).process (.Withdrawal 1 9 999999)).2).amounts =
      (Bank.empty.run [.Deposit 1 1 50000]).amounts ∧
    ∀ c a, (Bank.empty.run [.Deposit 1 1 50000]).accounts c = some a →
      (((Bank.empty.run [.Deposit 1 1 50000]).process (.Withdrawal 1 9 999999)).2).accounts c =
        some a :=
  ⟨by decide,
    (C3_error_no_mutation (Bank.empty.run [.Deposit 1 1 50000])
      (.Withdrawal 1 9 999999) .InsufficientFunds (by decide)).1,
    (C3_error_no_mutation (Bank.empty.run [.Deposit 1 1 50000])
      (.Withdrawal 1 9 999999) .InsufficientFunds (by decide)).2⟩

/-- Helper: processing a withdrawal leaves the whole amount history unchanged,
whether the withdrawal succeeds or fails. -/
theorem withdrawal_preserves_amounts (b : Bank) (c : ClientId) (id : TxId) (m : Money) :
    ((b.process (.Withdrawal c id m)).2).amounts = b.amounts := by
  simp only [Bank.process]
  cases hd : ((b.account c).1).withdraw m with
  | ok acc' =>
    simp only [hd]
    rw [Bank.setAccount_amounts, Bank.account_amounts]
  | error e =>
    simp only [hd]
    rw [Bank.account_amounts]

/-- Helper: processing any transaction that is not a deposit carrying TxId
`id` leaves the history entry of `id` unchanged. -/
theorem process_preserves_amount_at (b : Bank) (tx : Tx) (id : TxId)
    (h : ∀ c m, tx ≠ .Deposit c id m) :
    ((b.process tx).2).amounts id = b.amounts id := by
  cases tx with
  | Deposit client id' amount =>
    have hne : id ≠ id' := by
      intro he
      exact h client amount (by rw [he])
    simp only [Bank.process]
    cases hd : ((b.account client).1).deposit amount with
    | ok acc' =>
      simp only [hd]
      show ((((b.account client).2).setAccount client acc').recordAmount id' amount).amounts id = _
      simp only [Bank.recordAmount, Bank.setAccount]
      rw [if_neg hne, Bank.account_amounts]
    | error e =>
      simp only [hd]
      rw [Bank.account_amounts]
  | Withdrawal client id' amount =>
    rw [withdrawal_preserves_amounts]
  | Dispute client id' =>
    cases ham : b.amounts id' with
    | none => simp [Bank.process, Bank.amount, ham]
    | some amount =>
      simp only [Bank.process, Bank.amount, ham]
      cases hd : ((b.account client).1).dispute amount with
      | ok acc' =>
        simp only [hd]
        rw [Bank.setAccount_amounts, Bank.account_amounts]
      | error e =>
        simp only [hd]
        rw [Bank.account_amounts]
  | Resolve client id' =>
    cases ham : b.amounts id' with
    | none => simp [Bank.process, Bank.amount, ham]
    | some amount =>
      simp only [Bank.process, Bank.amount, ham]
      cases hd : ((b.account client).1).resolve amount with
      | ok acc' =>
        simp only [hd]
        rw [Bank.setAccount_amounts, Bank.account_amounts]
      | error e =>
        simp only [hd]
        rw [Bank.account_amounts]
  | Chargeback client id' =>
    cases ham : b.amounts id' with
    | none => simp [Bank.process, Bank.amount, ham]
    | some amount =>
      simp only [Bank.process, Bank.amount, ham]
      cases hd : ((b.account client).1).chargeback amount with
      | ok acc' =>
        simp only [hd]
        rw [Bank.setAccount_amounts, Bank.account_amounts]
      | error e =>
        simp only [hd]
        rw [Bank.account_amounts]

/-- Helper: a run containing no deposit carrying TxId `id` leaves the history
entry of `id` unchanged. -/
theorem run_preserves_amount_at (b : Bank) (txs : List Tx) (id : TxId)
    (h : ∀ tx ∈ txs, ∀ c m, tx ≠ Tx.Deposit c id m) :
    ((b.run txs).amounts) id = b.amounts id := by
  induction txs generalizing b with
  | nil => rfl
  | cons tx txs ih =>
    have h1 : ∀ c m, tx ≠ Tx.Deposit c id m := h tx (List.mem_cons_self tx txs)
    have h2 : ∀ tx' ∈ txs, ∀ c m, tx' ≠ Tx.Deposit c id m :=
      fun tx' ht => h tx' (List.mem_cons_of_mem tx ht)
    show ((((b.process tx).2).run txs).amounts) id = b.amounts id
    rw [ih _ h2, process_preserves_amount_at b tx id h1]

/-- C9: processing a Withdrawal never inserts its TxId into the amount
history, and after any run of transactions none of which is a deposit with
TxId `id` starting from a bank without a history entry for `id`, a dispute of
`id` fails with NoSuchTransaction. -/
theorem C9_withdrawal_not_disputable (b : Bank) (txs : List Tx) (c' : ClientId)
    (id : TxId)
    (hnone : b.amounts id = none)
    (hnodep : ∀ tx ∈ txs, ∀ c₀ m, tx ≠ Tx.Deposit c₀ id m) :
    (∀ (b₀ : Bank) (c₀ : ClientId) (id₀ : TxId) (m : Money),
        ((b₀.process (.Withdrawal c₀ id₀ m)).2).amounts = b₀.amounts) ∧
    ((b.run txs).process (.Dispute c' id)).1 = .error .NoSuchTransaction := by
  constructor
  · exact fun b₀ c₀ id₀ m => withdrawal_preserves_amounts b₀ c₀ id₀ m
  · have hnone' : (b.run txs).amounts id = none := by
      rw [run_preserves_amount_at b txs id hnodep]
      exact hnone
    simp [Bank.process, Bank.amount, hnone']

/-- C9 witness: after a run consisting of the single withdrawal with TxId 1,
disputing TxId 1 fails with NoSuchTransaction. -/
theorem C9_witness :
    ((Bank.empty.run [.Withdrawal 1 1 5]).process (.Dispute 1 1)).1 =
      .error .NoSuchTransaction :=
  (C9_withdrawal_not_disputable Bank.empty [.Withdrawal 1 1 5] 1 1 rfl
    (by
      intro tx htx c₀ m
      simp only [List.mem_singleton] at htx
      subst htx
      simp)).2

/-- Helper: `Account::deposit` on a locked account fails with LockedAccount. -/
theorem Account.deposit_locked (a : Account) (m : Money) (hl : a.locked = true) :
    a.deposit m = .error .LockedAccount := by
  simp [Account.deposit, Account.check_unlocked, hl]

/-- Helper: `Account::withdraw` on a locked account fails with LockedAccount. -/
theorem Account.withdraw_locked (a : Account) (m : Money) (hl : a.locked = true) :
    a.withdraw m = .error .LockedAccount := by
  simp [Account.withdraw, Account.check_unlocked, hl]

/-- Helper: `Account::withdraw` succeeds when the account is unlocked and the
in-range difference is non-negative. -/
theorem Account.withdraw_eq_ok (a : Account) (m : Money)
    (hl : a.locked = false)
    (h₁ : I64_MIN ≤ a.available - m) (h₂ : a.available - m ≤ I64_MAX)
    (h₃ : 0 ≤ a.available - m) :
    a.withdraw m = .ok { a with available := a.available - m } := by
  simp [Account.withdraw, Account.check_unlocked, checkedSub, hl, h₁, h₂, h₃]

/-- Helper: `Account::withdraw` fails with InsufficientFunds when the account
is unlocked and the in-range difference is negative. -/
theorem Account.withdraw_insufficient (a : Account) (m : Money)
    (hl : a.locked = false)
    (h₁ : I64_MIN ≤ a.available - m) (h₂ : a.available - m ≤ I64_MAX)
    (hneg : a.available - m < 0) :
    a.withdraw m = .error .InsufficientFunds := by
  simp [Account.withdraw, Account.check_unlocked, checkedSub, hl, h₁, h₂,
    not_le.mpr hneg]

/-- C4: withdraw succeeds, setting `available` to `available - amount`,
exactly when the account is unlocked and `available - amount` is representable
and non-negative; a locked account yields LockedAccount, and an unlocked
account with a representable negative result yields InsufficientFunds with
the account unchanged (the embedding returns no mutated account on error,
mirroring the source, which writes the field only in the success branch). -/
theorem C4_withdraw_spec (a : Account) (amount : Money) :
    ((∃ a', a.withdraw amount = .ok a') ↔
      (a.locked = false ∧ I64_MIN ≤ a.available - amount ∧
        a.available - amount ≤ I64_MAX ∧ 0 ≤ a.available - amount)) ∧
    (∀ a', a.withdraw amount = .ok a' →
      a' = { a with available := a.available - amount }) ∧
    (a.locked = true → a.withdraw amount = .error .LockedAccount) ∧
    (a.locked = false → I64_MIN ≤ a.available - amount →
      a.available - amount ≤ I64_MAX → a.available - amount < 0 →
      a.withdraw amount = .error .InsufficientFunds) := by
  refine ⟨⟨?_, ?_⟩, ?_, ?_, ?_⟩
  · rintro ⟨a', h⟩
    obtain ⟨hl, h₁, h₂, h₃, -⟩ := Account.withdraw_ok a a' amount h
    exact ⟨hl, h₁, h₂, h₃⟩
  · rintro ⟨hl, h₁, h₂, h₃⟩
    exact ⟨_, Account.withdraw_eq_ok a amount hl h₁ h₂ h₃⟩
  · intro a' h
    exact (Account.withdraw_ok a a' amount h).2.2.2.2
  · exact fun hl => Account.withdraw_locked a amount hl
  · exact fun hl h₁ h₂ hneg => Account.withdraw_insufficient a amount hl h₁ h₂ hneg

/-- Account used by witnesses: locked, with a positive balance. -/
def lockedAcc : Account := { client_id := 1, available := 10, held := 0, locked := true }

/-- Account used by witnesses: unlocked with `available = 5`. -/
def smallAcc : Account := { client_id := 2, available := 5, held := 0, locked := false }

/-- C4 witness: the three behaviours at concrete accounts and amounts. -/
theorem C4_witness :
    lockedAcc.withdraw 5 = .error .LockedAccount ∧
    smallAcc.withdraw 6 = .error .InsufficientFunds ∧
    (∃ a', smallAcc.withdraw 5 = .ok a') :=
  ⟨(C4_withdraw_spec lockedAcc 5).2.2.1 rfl,
   (C4_withdraw_spec smallAcc 6).2.2.2 rfl (by decide) (by decide) (by decide),
   (C4_withdraw_spec smallAcc 5).1.mpr ⟨rfl, by decide, by decide, by decide⟩⟩

/-- C5: a successful dispute of a TxId whose recorded amount is X moves
exactly X from the named client's `available` to its `held`, leaving
`available + held` unchanged. -/
theorem C5_dispute_moves_amount (b : Bank) (c : ClientId) (id : TxId) (X : Money)
    (hrec : b.amounts id = some X)
    (hok : (b.process (.Dispute c id)).1 = .ok ()) :
    ∃ a', ((b.process (.Dispute c id)).2).accounts c = some a' ∧
      a'.available = ((b.account c).1).available - X ∧
      a'.held = ((b.account c).1).held + X ∧
      a'.available + a'.held =
        ((b.account c).1).available + ((b.account c).1).held := by
  simp only [Bank.process, Bank.amount, hrec] at hok ⊢
  cases hd : ((b.account c).1).dispute X with
  | error e => simp [hd] at hok
  | ok acc' =>
    simp only [hd]
    obtain ⟨-, -, -, -, hacc⟩ := Account.dispute_ok _ _ _ hd
    subst hacc
    exact ⟨_, Bank.setAccount_accounts_self _ _ _, rfl, rfl, by ring⟩

/-- C5 witness: disputing the recorded deposit of 5.0 moves 5.0 from
available to held of client 1. -/
theorem C5_witness :
    ∃ a', (((Bank.empty.run [.Deposit 1 1 50000]).process (.Dispute 1 1)).2).accounts 1 =
        some a' ∧
      a'.available =
        (((Bank.empty.run [.Deposit 1 1 50000]).account 1).1).available - 50000 ∧
      a'.held = (((Bank.empty.run [.Deposit 1 1 50000]).account 1).1).held + 50000 ∧
      a'.available + a'.held =
        (((Bank.empty.run [.Deposit 1 1 50000]).account 1).1).available +
          (((Bank.empty.run [.Deposit 1 1 50000]).account 1).1).held :=
  C5_dispute_moves_amount (Bank.empty.run [.Deposit 1 1 50000]) 1 1 50000
    (by decide) (by decide)

/-- C6: a successful dispute of X followed by a successful resolve of X
restores `available` and `held` exactly. -/
theorem C6_resolve_inverts_dispute (a a₁ a₂ : Account) (X : Money)
    (h₁ : a.dispute X = .ok a₁) (h₂ : a₁.resolve X = .ok a₂) :
    a₂.available = a.available ∧ a₂.held = a.held := by
  obtain ⟨-, -, -, -, e₁⟩ := Account.dispute_ok _ _ _ h₁
  obtain ⟨-, -, -, -, e₂⟩ := Account.resolve_ok _ _ _ h₂
  subst e₁
  subst e₂
  constructor <;> simp

/-- Account used by the C6 witness before the dispute. -/
def acc6 : Account := { client_id := 1, available := 10, held := 0, locked := false }

/-- Account state of `acc6` after disputing 4. -/
def acc6d : Account := { client_id := 1, available := 6, held := 4, locked := false }

/-- Account state of `acc6d` after resolving 4. -/
def acc6r : Account := { client_id := 1, available := 10, held := 0, locked := false }

/-- C6 witness: dispute 4 then resolve 4 restores the concrete account. -/
theorem C6_witness :
    acc6.dispute 4 = .ok acc6d ∧ acc6d.resolve 4 = .ok acc6r ∧
    acc6r.available = acc6.available ∧ acc6r.held = acc6.held :=
  ⟨by decide, by decide,
    (C6_resolve_inverts_dispute acc6 acc6d acc6r 4 (by decide) (by decide)).1,
    (C6_resolve_inverts_dispute acc6 acc6d acc6r 4 (by decide) (by decide)).2⟩

/-- C7: a successful chargeback of X removes X from `held`, leaves
`available` unchanged and locks the account; afterwards deposit and withdraw
fail with LockedAccount for every amount, while dispute, resolve and
chargeback ignore the lock and still succeed whenever their checked
arithmetic stays in range. -/
theorem C7_chargeback_locks (a a' : Account) (X m : Money)
    (h : a.chargeback X = .ok a') :
    a'.held = a.held - X ∧ a'.locked = true ∧ a'.available = a.available ∧
    a'.deposit m = .error .LockedAccount ∧
    a'.withdraw m = .error .LockedAccount ∧
    (I64_MIN ≤ a'.available - m → a'.available - m ≤ I64_MAX →
      I64_MIN ≤ a'.held + m → a'.held + m ≤ I64_MAX →
      a'.dispute m = .ok { a' with available := a'.available - m, held := a'.held + m }) ∧
    (I64_MIN ≤ a'.available + m → a'.available + m ≤ I64_MAX →
      I64_MIN ≤ a'.held - m → a'.held - m ≤ I64_MAX →
      a'.resolve m = .ok { a' with available := a'.available + m, held := a'.held - m }) ∧
    (I64_MIN ≤ a'.held - m → a'.held - m ≤ I64_MAX →
      a'.chargeback m = .ok { a' with held := a'.held - m, locked := true }) := by
  obtain ⟨-, -, e⟩ := Account.chargeback_ok _ _ _ h
  subst e
  refine ⟨rfl, rfl, rfl, ?_, ?_, ?_, ?_, ?_⟩
  · exact Account.deposit_locked _ _ rfl
  · exact Account.withdraw_locked _ _ rfl
  · exact fun h₁ h₂ h₃ h₄ => Account.dispute_eq_ok _ _ h₁ h₂ h₃ h₄
  · exact fun h₁ h₂ h₃ h₄ => Account.resolve_eq_ok _ _ h₁ h₂ h₃ h₄
  · exact fun h₁ h₂ => Account.chargeback_eq_ok _ _ h₁ h₂

/-- Account used by the C7 witness: 5.0 held under dispute. -/
def acc7 : Account := { client_id := 1, available := 0, held := 5, locked := false }

/-- Account state of `acc7` after charging back 5. -/
def acc7c : Account := { client_id := 1, available := 0, held := 0, locked := true }

/-- C7 witness: the chargeback locks the concrete account, deposits and
withdrawals then fail, and a further dispute still succeeds. -/
theorem C7_witness :
    acc7.chargeback 5 = .ok acc7c ∧
    acc7c.deposit 3 = .error .LockedAccount ∧
    acc7c.withdraw 3 = .error .LockedAccount ∧
    acc7c.dispute 3 =
      .ok { acc7c with available := acc7c.available - 3, held := acc7c.held + 3 } :=
  ⟨by decide,
   (C7_chargeback_locks acc7 acc7c 5 3 (by decide)).2.2.2.1,
   (C7_chargeback_locks acc7 acc7c 5 3 (by decide)).2.2.2.2.1,
   (C7_chargeback_locks acc7 acc7c 5 3 (by decide)).2.2.2.2.2.1
     (by decide) (by decide) (by decide) (by decide)⟩

/-- C10: a dispute whose TxId is recorded is applied to the account of the
client named in the dispute, with no check that this client matches the
original depositor: on a bank where client `c₂` has never been seen, a
dispute naming `c₂` implicitly creates the account and moves the recorded
amount within it. -/
theorem C10_no_client_check (b : Bank) (c₂ : ClientId) (id : TxId) (X : Money)
    (hrec : b.amounts id = some X)
    (habs : b.accounts c₂ = none)
    (h₁ : I64_MIN ≤ -X) (h₂ : -X ≤ I64_MAX)
    (h₃ : I64_MIN ≤ X) (h₄ : X ≤ I64_MAX) :
    (b.process (.Dispute c₂ id)).1 = .ok () ∧
    ((b.process (.Dispute c₂ id)).2).accounts c₂ =
      some { client_id := c₂, available := -X, held := X, locked := false } ∧
    (∀ c, c ≠ c₂ → ((b.process (.Dispute c₂ id)).2).accounts c = b.accounts c) ∧
    ((b.process (.Dispute c₂ id)).2).amounts = b.amounts := by
  have hacc : b.account c₂ = (Account.new c₂,
      { b with accounts := fun c => if c = c₂ then some (Account.new c₂) else b.accounts c }) := by
    unfold Bank.account
    rw [habs]
  have hd : (Account.new c₂).dispute X =
      .ok { client_id := c₂, available := -X, held := X, locked := false } := by
    have h := Account.dispute_eq_ok (Account.new c₂) X
      (by simpa [Account.new] using h₁) (by simpa [Account.new] using h₂)
      (by simpa [Account.new] using h₃) (by simpa [Account.new] using h₄)
    simpa [Account.new] using h
  simp only [Bank.process, Bank.amount, hrec, hacc, hd]
  refine ⟨by trivial, ?_, ?_, by trivial⟩
  · exact Bank.setAccount_accounts_self _ _ _
  · intro c hc
    rw [Bank.setAccount_accounts_other _ _ _ _ hc]
    show (if c = c₂ then some (Account.new c₂) else b.accounts c) = b.accounts c
    rw [if_neg hc]

/-- Bank used by the C10 witness: client 1 deposited 100 under TxId 7. -/
def bank10 : Bank := (Bank.empty.process (.Deposit 1 7 100)).2

/-- C10 witness: client 2, never seen before, disputes TxId 7: its account is
created with available = -100 and held = 100, other accounts untouched. -/
theorem C10_witness :
    (bank10.process (.Dispute 2 7)).1 = .ok () ∧
    ((bank10.process (.Dispute 2 7)).2).accounts 2 =
      some { client_id := 2, available := -100, held := 100, locked := false } ∧
    (∀ c, c ≠ 2 → ((bank10.process (.Dispute 2 7)).2).accounts c = bank10.accounts c) ∧
    ((bank10.process (.Dispute 2 7)).2).amounts = bank10.amounts :=
  C10_no_client_check bank10 2 7 100 (by decide) (by decide)
    (by decide) (by decide) (by decide) (by decide)

/-- The largest representable `Money`, `i64::MAX`. -/
def M64 : Money := I64_MAX

/-- Three transactions that drive one account to `available = held = i64::MAX`. -/
def c1seq : List Tx := [.Deposit 1 1 M64, .Dispute 1 1, .Deposit 1 2 M64]

/-- C1: the claimed invariant fails on the code. Three transactions, each
individually successful, drive account 1 to `available = held = i64::MAX`,
a reachable state in which `available + held` is not representable, so
`total_balance` fails (the source panics in its `expect`). -/
theorem C1_total_balance_overflow :
    ((Bank.empty.run []).process (.Deposit 1 1 M64)).1 = .ok () ∧
    ((Bank.empty.run [.Deposit 1 1 M64]).process (.Dispute 1 1)).1 = .ok () ∧
    ((Bank.empty.run [.Deposit 1 1 M64, .Dispute 1 1]).process (.Deposit 1 2 M64)).1 = .ok () ∧
    ((Bank.empty.run c1seq).accounts 1).map Account.available = some I64_MAX ∧
    ((Bank.empty.run c1seq).accounts 1).map Account.held = some I64_MAX ∧
    ((Bank.empty.run c1seq).accounts 1).map Account.total_balance =
      some (.error .Overflow) := by
  decide

/-- The four transactions of the end-to-end scenario, amounts scaled by
10,000: deposit 5.0 and 3.0, withdraw 1.5, dispute the first deposit. -/
def c2seq : List Tx :=
  [.Deposit 1 1 50000, .Deposit 2 2 30000, .Withdrawal 1 3 15000, .Dispute 1 1]

/-- C2 counterexample: the claimed final state of account 1 (available = 3.5,
held = 5.0, total = 8.5) is false on the code. -/
theorem C2_counterexample :
    ¬ (((Bank.empty.run c2seq).accounts 1).map Account.available = some 35000 ∧
       ((Bank.empty.run c2seq).accounts 1).map Account.held = some 50000 ∧
       ((Bank.empty.run c2seq).accounts 1).map Account.total_balance =
         some (.ok 85000)) := by
  decide

/-- C2 amended: the scenario actually yields account 1 with available = -1.5,
held = 5.0, total = 3.5, locked = false, and account 2 with available = 3.0,
held = 0, total = 3.0, locked = false. -/
theorem C2_scenario_actual :
    (Bank.empty.run c2seq).accounts 1 =
      some { client_id := 1, available := -15000, held := 50000, locked := false } ∧
    ((Bank.empty.run c2seq).accounts 1).map Account.total_balance = some (.ok 35000) ∧
    (Bank.empty.run c2seq).accounts 2 =
      some { client_id := 2, available := 30000, held := 0, locked := false } ∧
    ((Bank.empty.run c2seq).accounts 2).map Account.total_balance = some (.ok 30000) := by
  decide
